import Mathlib

/-!
Verification of the acquisition-and-relay gateway of the
web_monitoring_robots repository.  The definitions below are a shallow
embedding of src/Server.py and of Database.update_robots from
src/utils_db.py: network effects are made explicit as inputs (the
fieldbus environment, the frame stream of a viewer session) and as
outputs (issued register-read requests, log events, rows handed to the
database).  Log statements are modelled as structured events, one
constructor per logger call site of the source.
-/

/-- Register Map of Server.py lines 13-20: field name to fixed word offset. -/
def REGISTERS : List (String × Nat) :=
  [("name", 0), ("is_active", 1), ("mode", 2),
   ("cycles_current", 3), ("cycles_total", 4), ("oee", 5)]

/-- Offset lookup of the REGISTERS dict, as used inside read_data. -/
def regsLookup (field : String) : Nat := (REGISTERS.lookup field).getD 0

/-- One decoded telemetry record: the slave_data dict built in Server.py
lines 104-111.  Every value is the raw 16-bit register word, kept as a
natural number, exactly as the source stores the ints it read. -/
structure SlaveData where
  name : Nat
  is_active : Nat
  mode : Nat
  cycles_current : Nat
  cycles_total : Nat
  oee : Nat
deriving Repr, DecidableEq

/-- Python bool() of a register word, as the int value it compares equal
to: bool(0) == 0 and bool(n) == 1 for nonzero n. -/
def pyBool (n : Nat) : Nat := if n = 0 then 0 else 1

/-- Modbus reply to one read_holding_registers call: either a
protocol-level error (response.isError() is true) or a word list. -/
inductive ModbusResponse where
  | err : ModbusResponse
  | ok : List Nat → ModbusResponse
deriving Repr, DecidableEq

/-- The isError() predicate of a pymodbus response. -/
def ModbusResponse.isError : ModbusResponse → Bool
  | .err => true
  | .ok _ => false

/-- The registers attribute of a pymodbus response; the source only reads
it on non-error responses. -/
def ModbusResponse.registers : ModbusResponse → List Nat
  | .err => []
  | .ok regs => regs

/-- The fieldbus environment of one poll cycle: whether client.connect()
succeeds, and the response each slave id would give. -/
structure Fieldbus where
  connectOk : Bool
  respond : Nat → ModbusResponse

/-- Severity of a log call. -/
inductive LogLevel where
  | info : LogLevel
  | warning : LogLevel
  | error : LogLevel
deriving Repr, DecidableEq

/-- The log statements of the poller side of Server.py, one constructor
per logger call site: connection failure (line 88), per-slave read error
(line 100), per-slave exception (line 117), per-slave data info
(line 114), the cycle-start info (line 131) and the outer loop error
handler (line 140). -/
inductive LogEvent where
  | connectFailed : LogEvent
  | readWarning : Nat → LogEvent
  | readException : Nat → LogEvent
  | slaveInfo : Nat → LogEvent
  | requestingData : LogEvent
  | mainLoopError : LogEvent
deriving Repr, DecidableEq

/-- Severity used by each logger call site in the source. -/
def LogEvent.level : LogEvent → LogLevel
  | .connectFailed => .error
  | .readWarning _ => .warning
  | .readException _ => .error
  | .slaveInfo _ => .info
  | .requestingData => .info
  | .mainLoopError => .error

/-- One read_holding_registers request as issued by read_data. -/
structure ReadRequest where
  address : Nat
  count : Nat
  slave : Nat
deriving Repr, DecidableEq

/-- Key under which a record is stored in the all_data dict. -/
def slaveKey (slave_id : Nat) : String := "slave_" ++ toString slave_id

/-- Decoding of one response into the slave_data dict (lines 103-111).
In Python each registers[off] raises IndexError when off is out of
range; the per-slave except handler swallows it and no record is built.
Hence a record exists exactly when every Register Map offset is within
the response, and then each field is the word at its offset. -/
def decodeSlave (registers : List Nat) : Option SlaveData :=
  if REGISTERS.all (fun p => p.2 < registers.length) then
    some { name := registers.getD (regsLookup "name") 0,
           is_active := registers.getD (regsLookup "is_active") 0,
           mode := registers.getD (regsLookup "mode") 0,
           cycles_current := registers.getD (regsLookup "cycles_current") 0,
           cycles_total := registers.getD (regsLookup "cycles_total") 0,
           oee := registers.getD (regsLookup "oee") 0 }
  else
    none

/-- Field access by Register Map name, used to re-encode a record. -/
def fieldValue (d : SlaveData) : String → Nat
  | "name" => d.name
  | "is_active" => d.is_active
  | "mode" => d.mode
  | "cycles_current" => d.cycles_current
  | "cycles_total" => d.cycles_total
  | "oee" => d.oee
  | _ => 0

/-- Re-encoding of a record: write every field back at its Register Map
offset into an N-word block. -/
def encodeSlave (d : SlaveData) : List Nat :=
  REGISTERS.foldl (fun ws p => ws.set p.2 (fieldValue d p.1))
    (List.replicate REGISTERS.length 0)

/-- Aggregate result of one read_data call: the returned value (none
models the Python None returned on connection failure), the log events
emitted in order, and the issued register-read requests in order. -/
structure ReadDataResult where
  data : Option (List (String × SlaveData))
  logs : List LogEvent
  requests : List ReadRequest
deriving Repr, DecidableEq

/-- Body of one iteration of the slave loop of read_data (lines 91-117):
issue the read request, then either warn on a protocol error, record the
decoded data, or log the swallowed per-slave exception. -/
def readStep (fb : Fieldbus)
    (acc : List (String × SlaveData) × List LogEvent × List ReadRequest)
    (slave_id : Nat) :
    List (String × SlaveData) × List LogEvent × List ReadRequest :=
  let response := fb.respond slave_id
  let reqs := acc.2.2 ++ [{ address := 0, count := REGISTERS.length, slave := slave_id }]
  if response.isError then
    (acc.1, acc.2.1 ++ [LogEvent.readWarning slave_id], reqs)
  else
    match decodeSlave response.registers with
    | none => (acc.1, acc.2.1 ++ [LogEvent.readException slave_id], reqs)
    | some d =>
        (acc.1 ++ [(slaveKey slave_id, d)], acc.2.1 ++ [LogEvent.slaveInfo slave_id], reqs)

/-- read_data (Server.py lines 83-119): on connection failure log an
error and return None with no request issued; otherwise loop over slave
ids 1..slave_count and return the accumulated dict. -/
def read_data (fb : Fieldbus) (slave_count : Nat) : ReadDataResult :=
  if fb.connectOk then
    let r := (List.range' 1 slave_count).foldl (readStep fb) ([], [], [])
    { data := some r.1, logs := r.2.1, requests := r.2.2 }
  else
    { data := none, logs := [LogEvent.connectFailed], requests := [] }

/-- The record slot k yields this cycle, if any. -/
def deviceRecord (fb : Fieldbus) (k : Nat) : Option SlaveData :=
  if (fb.respond k).isError then none else decodeSlave (fb.respond k).registers

/-- Whether slot k contributes a record this cycle. -/
def deviceOk (fb : Fieldbus) (k : Nat) : Bool := (deviceRecord fb k).isSome

/-- The log event the slave loop emits for slot k. -/
def slotLog (fb : Fieldbus) (k : Nat) : LogEvent :=
  if (fb.respond k).isError then LogEvent.readWarning k
  else
    match decodeSlave (fb.respond k).registers with
    | none => LogEvent.readException k
    | some _ => LogEvent.slaveInfo k

/-- Parameter record of one INSERT ... ON CONFLICT execution inside
Database.update_robots (utils_db.py lines 149-156): is_active goes
through Python bool(), every other value is passed through raw. -/
structure RobotRow where
  name : Nat
  is_active : Bool
  mode : Nat
  cycles_current : Nat
  cycles_total : Nat
  oee : Nat
deriving Repr, DecidableEq

/-- The parameter dict built for one record by update_robots. -/
def rowParams (d : SlaveData) : RobotRow :=
  { name := d.name, is_active := d.is_active != 0, mode := d.mode,
    cycles_current := d.cycles_current, cycles_total := d.cycles_total, oee := d.oee }

/-- Python-level error raised inside update_robots. -/
inductive PyError where
  | attributeError : PyError
deriving Repr, DecidableEq

/-- Database.update_robots (utils_db.py lines 136-157).  Called with None
(the connection-failure result of read_data) it raises AttributeError at
robots_data.values() before any row is written; called with a dict it
executes one upsert per value, in order, and commits. -/
def update_robots (robots_data : Option (List (String × SlaveData))) :
    Except PyError (List RobotRow) :=
  match robots_data with
  | none => Except.error PyError.attributeError
  | some l => Except.ok (l.map (fun p => rowParams p.2))

/-- Observable outcome of one iteration of the polling while-loop of the
Server.py entry block (lines 129-141): log events in order, issued
fieldbus requests, number of calls made to the persistence sink, the
rows handed to it, whether its transaction committed, and the sleep
chosen before the next cycle. -/
structure CycleResult where
  logs : List LogEvent
  requests : List ReadRequest
  sinkCalls : Nat
  rowsUpserted : List RobotRow
  committed : Bool
  sleepSeconds : Nat
deriving Repr, DecidableEq

/-- One iteration of the polling while-loop: log the cycle start, call
read_data, unconditionally pass its result to ut.update_robots, then
sleep 5 seconds; any exception is caught by the outer handler, logged,
and followed by a 10 second sleep instead. -/
def poll_cycle (fb : Fieldbus) (slave_count : Nat) : CycleResult :=
  let rd := read_data fb slave_count
  match update_robots rd.data with
  | Except.ok rows =>
      { logs := [LogEvent.requestingData] ++ rd.logs,
        requests := rd.requests, sinkCalls := 1, rowsUpserted := rows,
        committed := true, sleepSeconds := 5 }
  | Except.error _ =>
      { logs := [LogEvent.requestingData] ++ rd.logs ++ [LogEvent.mainLoopError],
        requests := rd.requests, sinkCalls := 1, rowsUpserted := [],
        committed := false, sleepSeconds := 10 }

/-- Parsed components of a URI, as urlparse exposes them.  The host field
keeps the spelling found in the URI; the hostname attribute of a CPython
parse result lowercases it, and port is the explicit port when one is
written (port 0 is representable and parses to the int 0). -/
structure ParsedUrl where
  scheme : String
  userinfo : Option String
  host : String
  port : Option Nat
  path : String
  params : String
  query : String
  fragment : String
deriving Repr, DecidableEq

/-- Per-character lowercasing, modelling str.lower as the hostname
attribute applies it to the host. -/
def strLower (s : String) : String := String.mk (s.data.map Char.toLower)

/-- The hostname attribute of the parse result: the host, lowercased. -/
def ParsedUrl.hostname (u : ParsedUrl) : String := strLower u.host

/-- Components of the ParseResult built by add_auth_to_url; geturl()
reassembles them with netloc as the authority component. -/
structure UrlResult where
  scheme : String
  netloc : String
  path : String
  params : String
  query : String
  fragment : String
deriving Repr, DecidableEq

/-- add_auth_to_url (Server.py lines 46-59): the netloc is rebuilt from
the hostname attribute of the parse, and the port is appended only when
parsed.port is truthy; None and 0 are both falsy in Python, so an
explicit port 0 is dropped. -/
def add_auth_to_url (u : ParsedUrl) (user password : String) : UrlResult :=
  let netloc := user ++ ":" ++ password ++ "@" ++ u.hostname
  let netloc :=
    match u.port with
    | some p => if p ≠ 0 then netloc ++ ":" ++ toString p else netloc
    | none => netloc
  { scheme := u.scheme, netloc := netloc, path := u.path,
    params := u.params, query := u.query, fragment := u.fragment }

/-- Authority port suffix predicted by the amended form of the rewrite
contract: present exactly for an explicit nonzero port. -/
def portSuffix : Option Nat → String
  | some p => if p ≠ 0 then ":" ++ toString p else ""
  | none => ""

/-- One iteration worth of environment for the viewer session loop: the
outcome of cap.read() (none models ret being false) and, when a frame
arrives, whether forwarding it to the viewer raises. -/
structure StreamStep where
  readOk : Option Nat
  sendRaises : Bool
deriving Repr, DecidableEq

/-- How the observed part of a viewer session ended. -/
inductive ExitKind where
  | readFailed : ExitKind
  | sendRaised : ExitKind
  | fuelOut : ExitKind
deriving Repr, DecidableEq

/-- Observable result of a viewer session: frames forwarded, whether
cap.release() has run, whether an exception escaped stream_camera, and
the exit kind.  fuelOut means the supplied step list ended while the
loop was still running, so the release has not happened yet. -/
structure SessionResult where
  sent : List Nat
  released : Bool
  raised : Bool
  exit : ExitKind
deriving Repr, DecidableEq

/-- The while-loop of stream_camera (Server.py lines 67-80) together with
its try/finally: a failed read breaks out of the loop normally, a
raising send propagates out of the function, and the finally clause
releases the capture on both of those paths. -/
def runStream : List StreamStep → List Nat → SessionResult
  | [], sent =>
      { sent := sent, released := false, raised := false, exit := ExitKind.fuelOut }
  | step :: rest, sent =>
      match step.readOk with
      | none =>
          { sent := sent, released := true, raised := false, exit := ExitKind.readFailed }
      | some frame =>
          if step.sendRaises then
            { sent := sent, released := true, raised := true, exit := ExitKind.sendRaised }
          else
            runStream rest (sent ++ [frame])

/-- stream_camera viewed as a function of the step environment, starting
with no frame sent. -/
def stream_camera (steps : List StreamStep) : SessionResult := runStream steps []

/-- The bare asyncio.Future() awaited inside main (Server.py line 124)
never has a result set anywhere, so it never resolves. -/
def bareFutureResolves : Bool := false

/-- main() returns only when the awaited future resolves, hence the
asyncio.run call on line 128 returns only then. -/
def asyncioRunReturns : Bool := bareFutureResolves

/-- Top-level phases of the Server.py entry block, in program order. -/
inductive TopAction where
  | relayServerServe : TopAction
  | pollLoopRun : TopAction
deriving Repr, DecidableEq

/-- Program order of the entry block (lines 127-141): asyncio.run(main())
executes first, and the polling while-loop is reached only if that call
returns. -/
def mainActions : List TopAction :=
  [TopAction.relayServerServe] ++ (if asyncioRunReturns then [TopAction.pollLoopRun] else [])

/-- Fieldbus where the connection fails. -/
def fbDown : Fieldbus := { connectOk := false, respond := fun _ => ModbusResponse.err }

/-- Fieldbus where the connection succeeds but every slave read reports a
protocol error, so the batch comes back empty. -/
def fbEmpty : Fieldbus := { connectOk := true, respond := fun _ => ModbusResponse.err }

/-- Fieldbus where every slave answers with only three words. -/
def fbShort : Fieldbus :=
  { connectOk := true, respond := fun _ => ModbusResponse.ok [1, 2, 3] }

/-- Fieldbus where every slave answers with a full six-word block. -/
def fbAllOk : Fieldbus :=
  { connectOk := true, respond := fun k => ModbusResponse.ok [k, 1, 0, 10, 20, 95] }

/-- Fieldbus where slot 2 reports a protocol error and every other slot
answers with a full block. -/
def fbMixed : Fieldbus :=
  { connectOk := true,
    respond := fun k =>
      if k == 2 then ModbusResponse.err else ModbusResponse.ok [k, 1, 0, 10, 20, 95] }

/-- Session environment: one good frame, then a failed read. -/
def demoSteps : List StreamStep :=
  [{ readOk := some 7, sendRaises := false }, { readOk := none, sendRaises := false }]

/-- URI with an uppercase host and an explicit port, as a camera could
return it. -/
def uUpper : ParsedUrl :=
  { scheme := "rtsp", userinfo := none, host := "CAM.local", port := some 554,
    path := "/stream", params := "", query := "", fragment := "" }

/-- Unfolding of the slave loop: folding readStep over any id list
appends, per id, its record (when produced), its log event and its
request to the accumulator. -/
theorem readStep_foldl (fb : Fieldbus) (l : List Nat) :
    ∀ acc : List (String × SlaveData) × List LogEvent × List ReadRequest,
      l.foldl (readStep fb) acc =
        (acc.1 ++ l.filterMap (fun k => (deviceRecord fb k).map (fun d => (slaveKey k, d))),
         acc.2.1 ++ l.map (slotLog fb),
         acc.2.2 ++ l.map (fun k => { address := 0, count := REGISTERS.length, slave := k })) := by
  induction l with
  | nil => intro acc; simp
  | cons k l ih =>
      intro acc
      rw [List.foldl_cons, ih]
      cases hE : (fb.respond k).isError with
      | false =>
          cases hD : decodeSlave (fb.respond k).registers with
          | none => simp [readStep, deviceRecord, slotLog, hE, hD]
          | some d => simp [readStep, deviceRecord, slotLog, hE, hD]
      | true => simp [readStep, deviceRecord, slotLog, hE]

/-- Closed form of read_data on a live connection. -/
theorem read_data_connected (fb : Fieldbus) (N : Nat) (h : fb.connectOk = true) :
    read_data fb N =
      { data := some ((List.range' 1 N).filterMap
            (fun k => (deviceRecord fb k).map (fun d => (slaveKey k, d)))),
        logs := (List.range' 1 N).map (slotLog fb),
        requests := (List.range' 1 N).map
            (fun k => { address := 0, count := REGISTERS.length, slave := k }) } := by
  simp [read_data, h, readStep_foldl]

/-- The keys of the produced batch are the keys of the slots that decoded
successfully, in slot order. -/
theorem keys_of_filterMap (fb : Fieldbus) (l : List Nat) :
    (l.filterMap (fun k => (deviceRecord fb k).map (fun d => (slaveKey k, d)))).map Prod.fst
      = (l.filter (deviceOk fb)).map slaveKey := by
  induction l with
  | nil => rfl
  | cons k l ih =>
      cases hk : deviceRecord fb k with
      | none => simp [List.filterMap_cons, List.filter_cons, deviceOk, hk, ih]
      | some d => simp [List.filterMap_cons, List.filter_cons, deviceOk, hk, ih]

/-- On every observed exit of the session loop the capture is released,
and a read-failure exit propagates no exception. -/
theorem runStream_cleanup (steps : List StreamStep) :
    ∀ sent,
      ((runStream steps sent).exit = ExitKind.readFailed →
          (runStream steps sent).raised = false ∧ (runStream steps sent).released = true) ∧
      ((runStream steps sent).exit = ExitKind.sendRaised →
          (runStream steps sent).released = true) := by
  induction steps with
  | nil => intro sent; simp [runStream]
  | cons step rest ih =>
      intro sent
      cases hr : step.readOk with
      | none => simp [runStream, hr]
      | some f' =>
          by_cases hs : step.sendRaises = true
          · simp [runStream, hr, hs]
          · simpa [runStream, hr, hs] using ih (sent ++ [f'])

/-- C1: the spec requires the Telemetry Poller and the Video Relay Server
to run as concurrent subsystems, but in the entry block the polling loop
is reached only after asyncio.run(main()) returns, and main awaits a
bare future that never resolves: no poll cycle ever runs while the relay
server is serving. -/
theorem c1_poll_loop_never_reached :
    mainActions = [TopAction.relayServerServe] ∧ TopAction.pollLoopRun ∉ mainActions := by
  decide

/-- C2 counterexample: a cycle that produces an empty batch (connection
up, every read failing) still calls the persistence sink once, and its
log contains no message saying that no data was available. -/
theorem c2_empty_batch_counterexample :
    (read_data fbEmpty 1).data = some [] ∧
    (poll_cycle fbEmpty 1).sinkCalls ≠ 0 ∧
    (poll_cycle fbEmpty 1).logs = [LogEvent.requestingData, LogEvent.readWarning 1] := by
  decide

/-- C2 amended: in a poll cycle whose batch is empty, update_robots is
still invoked (one sink call) but upserts zero rows, commits the empty
transaction, and the cycle proceeds on the normal 5 second path; the
code has no dedicated no-data log message. -/
theorem c2_empty_batch_sink_called (fb : Fieldbus) (N : Nat)
    (h : (read_data fb N).data = some []) :
    (poll_cycle fb N).sinkCalls = 1 ∧ (poll_cycle fb N).rowsUpserted = [] ∧
    (poll_cycle fb N).committed = true ∧ (poll_cycle fb N).sleepSeconds = 5 := by
  simp [poll_cycle, update_robots, h]

theorem c2_empty_batch_witness :
    (poll_cycle fbEmpty 1).sinkCalls = 1 ∧ (poll_cycle fbEmpty 1).rowsUpserted = [] ∧
    (poll_cycle fbEmpty 1).committed = true ∧ (poll_cycle fbEmpty 1).sleepSeconds = 5 :=
  c2_empty_batch_sink_called fbEmpty 1 (by decide)

/-- C3 counterexample: when the fieldbus connection fails the persistence
sink is still called that cycle (update_robots receives None and
raises), so the claim that no call to the sink happens is false. -/
theorem c3_conn_failure_counterexample :
    fbDown.connectOk = false ∧ (poll_cycle fbDown 3).sinkCalls ≠ 0 := by
  decide

/-- C3 amended: a failed connection aborts the cycle with no per-device
reads, logs a connection-level error, still passes the None result to
the persistence sink whose invocation raises before writing any row,
and the resulting exception routes the cycle to the 10 second extended
backoff instead of the normal 5 second period. -/
theorem c3_conn_failure_cycle (fb : Fieldbus) (N : Nat) (h : fb.connectOk = false) :
    (poll_cycle fb N).requests = [] ∧
    LogEvent.connectFailed ∈ (poll_cycle fb N).logs ∧
    LogEvent.level LogEvent.connectFailed = LogLevel.error ∧
    (poll_cycle fb N).sinkCalls = 1 ∧
    (poll_cycle fb N).rowsUpserted = [] ∧
    (poll_cycle fb N).committed = false ∧
    (poll_cycle fb N).sleepSeconds = 10 := by
  have hrd : read_data fb N =
      { data := none, logs := [LogEvent.connectFailed], requests := [] } := by
    simp [read_data, h]
  simp [poll_cycle, hrd, update_robots, LogEvent.level]

theorem c3_conn_failure_witness :
    (poll_cycle fbDown 1).requests = [] ∧
    LogEvent.connectFailed ∈ (poll_cycle fbDown 1).logs ∧
    LogEvent.level LogEvent.connectFailed = LogLevel.error ∧
    (poll_cycle fbDown 1).sinkCalls = 1 ∧
    (poll_cycle fbDown 1).rowsUpserted = [] ∧
    (poll_cycle fbDown 1).committed = false ∧
    (poll_cycle fbDown 1).sleepSeconds = 10 :=
  c3_conn_failure_cycle fbDown 1 rfl

/-- C4 counterexample: a short (three-word) response is handled by the
generic per-device exception handler, which logs at error level, not as
a per-device warning; the slot is still skipped. -/
theorem c4_short_read_counterexample :
    (fbShort.respond 1).isError = false ∧
    (read_data fbShort 1).logs = [LogEvent.readException 1] ∧
    LogEvent.readWarning 1 ∉ (read_data fbShort 1).logs ∧
    LogEvent.level (LogEvent.readException 1) = LogLevel.error ∧
    (read_data fbShort 1).data.getD [] = [] := by
  decide

/-- C4 amended: a slot whose read reports a protocol-level error is
logged with a per-device warning, while a short response is logged with
a per-device error-level message; in both cases the cycle continues and
the batch keys are exactly the keys of the slots that decoded
successfully, so the failing slot is absent and every other
successfully-read slot is present. -/
theorem c4_device_skip (fb : Fieldbus) (N k : Nat) (hc : fb.connectOk = true)
    (hk : k ∈ List.range' 1 N) (hbad : deviceOk fb k = false) :
    ((read_data fb N).data.getD []).map Prod.fst
        = ((List.range' 1 N).filter (deviceOk fb)).map slaveKey ∧
    k ∉ (List.range' 1 N).filter (deviceOk fb) ∧
    (∀ j, j ∈ List.range' 1 N → deviceOk fb j = true →
        j ∈ (List.range' 1 N).filter (deviceOk fb)) ∧
    ((fb.respond k).isError = true → LogEvent.readWarning k ∈ (read_data fb N).logs) ∧
    ((fb.respond k).isError = false → LogEvent.readException k ∈ (read_data fb N).logs) := by
  rw [read_data_connected fb N hc]
  refine ⟨?_, ?_, ?_, ?_, ?_⟩
  · simpa using keys_of_filterMap fb (List.range' 1 N)
  · simp [List.mem_filter, hbad]
  · intro j hj hok
    simp [List.mem_filter, hj, hok]
  · intro hE
    refine List.mem_map.mpr ⟨k, hk, ?_⟩
    simp [slotLog, hE]
  · intro hE
    have hnone : deviceRecord fb k = none := by
      cases hdr : deviceRecord fb k with
      | none => rfl
      | some d => simp [deviceOk, hdr] at hbad
    have hdec : decodeSlave (fb.respond k).registers = none := by
      simpa [deviceRecord, hE] using hnone
    refine List.mem_map.mpr ⟨k, hk, ?_⟩
    simp [slotLog, hE, hdec]

theorem c4_device_skip_witness :
    ((read_data fbMixed 3).data.getD []).map Prod.fst
        = ((List.range' 1 3).filter (deviceOk fbMixed)).map slaveKey ∧
    2 ∉ (List.range' 1 3).filter (deviceOk fbMixed) ∧
    LogEvent.readWarning 2 ∈ (read_data fbMixed 3).logs :=
  ⟨(c4_device_skip fbMixed 3 2 rfl (by decide) (by decide)).1,
   (c4_device_skip fbMixed 3 2 rfl (by decide) (by decide)).2.1,
   (c4_device_skip fbMixed 3 2 rfl (by decide) (by decide)).2.2.2.1 (by decide)⟩

/-- C5: on a live connection one poll cycle issues exactly one
register-block read per slave id 1..N, in increasing id order, each with
count len(REGISTERS) (which is 6) and starting address 0. -/
theorem c5_read_requests (fb : Fieldbus) (N : Nat) (h : fb.connectOk = true) :
    (read_data fb N).requests
        = (List.range' 1 N).map
            (fun k => { address := 0, count := REGISTERS.length, slave := k }) ∧
    (read_data fb N).requests.length = N ∧
    REGISTERS.length = 6 := by
  rw [read_data_connected fb N h]
  refine ⟨rfl, ?_, rfl⟩
  simp

theorem c5_read_requests_witness :
    (read_data fbAllOk 2).requests
        = [{ address := 0, count := 6, slave := 1 }, { address := 0, count := 6, slave := 2 }] := by
  have h := (c5_read_requests fbAllOk 2 rfl).1
  rw [h]
  decide

/-- C6: decoding a full N-word block through the Register Map and then
re-encoding every field back at its offset reproduces the original word
list. -/
theorem c6_register_roundtrip (ws : List Nat) (h : ws.length = REGISTERS.length) :
    (decodeSlave ws).map encodeSlave = some ws := by
  have h6 : ws.length = 6 := h
  rcases ws with _ | ⟨w0, _ | ⟨w1, _ | ⟨w2, _ | ⟨w3, _ | ⟨w4, _ | ⟨w5, _ | ⟨w6, tl⟩⟩⟩⟩⟩⟩⟩ <;>
    first
    | rfl
    | (simp only [List.length_cons, List.length_nil] at h6; omega)

theorem c6_register_roundtrip_witness :
    (decodeSlave [10, 1, 2, 30, 40, 99]).map encodeSlave = some [10, 1, 2, 30, 40, 99] :=
  c6_register_roundtrip [10, 1, 2, 30, 40, 99] rfl

/-- C7 counterexample: urlparse exposes the host through the lowercasing
hostname attribute, so for an uppercase input host the rebuilt authority
is not exactly username:password@host. -/
theorem c7_add_auth_counterexample :
    (add_auth_to_url uUpper "user" "pw").netloc = "user:pw@cam.local:554" ∧
    (add_auth_to_url uUpper "user" "pw").netloc ≠ "user:pw@CAM.local:554" := by
  decide

/-- C7 amended: add_auth_to_url preserves scheme, path, params, query and
fragment unchanged and rebuilds the authority as username:password@
followed by the lowercased host and by :port exactly when the input
carried an explicit nonzero port (Python truthiness drops port 0). -/
theorem c7_add_auth_components (u : ParsedUrl) (user password : String) :
    add_auth_to_url u user password =
      { scheme := u.scheme,
        netloc := user ++ ":" ++ password ++ "@" ++ strLower u.host ++ portSuffix u.port,
        path := u.path, params := u.params, query := u.query, fragment := u.fragment } := by
  cases hp : u.port with
  | none => simp [add_auth_to_url, portSuffix, ParsedUrl.hostname, hp]
  | some p =>
      by_cases h0 : p = 0
      · simp [add_auth_to_url, portSuffix, ParsedUrl.hostname, hp, h0]
      · simp [add_auth_to_url, portSuffix, ParsedUrl.hostname, hp, h0,
              String.append_assoc]

/-- C8 counterexample: the decoded record keeps the raw word in is_active
(here 2), not the Python bool of it (which compares equal to 1), so at
the decoding layer is_active is not yet the nonzero-word boolean. -/
theorem c8_is_active_counterexample :
    (decodeSlave [7, 2, 3, 4, 5, 6]).map SlaveData.is_active = some 2 ∧
    pyBool 2 = 1 ∧
    (decodeSlave [7, 2, 3, 4, 5, 6]).map SlaveData.is_active ≠ some (pyBool 2) := by
  decide

/-- C8 amended: decoding keeps is_active and mode as the raw words at
their Register Map offsets; the nonzero-word boolean is applied to
is_active only by update_robots when it builds the row parameters, and
mode is passed through unchanged at both layers. -/
theorem c8_decode_raw_fields (regs : List Nat) (d : SlaveData)
    (h : decodeSlave regs = some d) :
    d.is_active = regs.getD (regsLookup "is_active") 0 ∧
    d.mode = regs.getD (regsLookup "mode") 0 ∧
    (rowParams d).is_active = (d.is_active != 0) ∧
    (rowParams d).mode = d.mode := by
  simp only [decodeSlave] at h
  split at h
  · simp only [Option.some.injEq] at h
    subst h
    exact ⟨rfl, rfl, rfl, rfl⟩
  · simp at h

theorem c8_decode_raw_fields_witness :
    (2 : Nat) = List.getD [7, 2, 3, 4, 5, 6] (regsLookup "is_active") 0 ∧
    (3 : Nat) = List.getD [7, 2, 3, 4, 5, 6] (regsLookup "mode") 0 ∧
    (rowParams ⟨7, 2, 3, 4, 5, 6⟩).is_active = ((2 : Nat) != 0) ∧
    (rowParams ⟨7, 2, 3, 4, 5, 6⟩).mode = 3 :=
  c8_decode_raw_fields [7, 2, 3, 4, 5, 6] ⟨7, 2, 3, 4, 5, 6⟩ (by decide)

/-- C9: when the session loop ends because a frame read failed, the exit
is clean (no exception escapes stream_camera) and the decode handle is
released; the handle is also released on the exceptional exit where a
send raises mid-loop. -/
theorem c9_session_cleanup (steps : List StreamStep) :
    ((stream_camera steps).exit = ExitKind.readFailed →
        (stream_camera steps).raised = false ∧ (stream_camera steps).released = true) ∧
    ((stream_camera steps).exit = ExitKind.sendRaised →
        (stream_camera steps).released = true) := by
  have h := runStream_cleanup steps []
  simpa [stream_camera] using h

theorem c9_session_cleanup_witness :
    (stream_camera demoSteps).raised = false ∧ (stream_camera demoSteps).released = true :=
  (c9_session_cleanup demoSteps).1 (by decide)

/-- C10: read_data returns none exactly on connection failure; every key
of a returned mapping has the form slave_i with 1 ≤ i ≤ slave_count; and
the two outcomes lead the caller down different paths: passing None to
update_robots raises and yields the 10 second backoff, while passing an
empty mapping succeeds and keeps the normal 5 second period. -/
theorem c10_read_data_contract (fb : Fieldbus) (N : Nat) :
    ((read_data fb N).data = none ↔ fb.connectOk = false) ∧
    (∀ p, p ∈ (read_data fb N).data.getD [] →
        ∃ i, 1 ≤ i ∧ i ≤ N ∧ p.1 = slaveKey i) ∧
    (fb.connectOk = false →
        update_robots (read_data fb N).data = Except.error PyError.attributeError ∧
        (poll_cycle fb N).sleepSeconds = 10) ∧
    (fb.connectOk = true → (read_data fb N).data = some [] →
        update_robots (read_data fb N).data = Except.ok [] ∧
        (poll_cycle fb N).sleepSeconds = 5) := by
  refine ⟨?_, ?_, ?_, ?_⟩
  · cases hc : fb.connectOk with
    | false => simp [read_data, hc]
    | true => rw [read_data_connected fb N hc]; simp
  · intro p hp
    cases hc : fb.connectOk with
    | false => simp [read_data, hc] at hp
    | true =>
        rw [read_data_connected fb N hc] at hp
        simp only [Option.getD_some] at hp
        rcases List.mem_filterMap.mp hp with ⟨k, hks, hmap⟩
        cases hdr : deviceRecord fb k with
        | none => rw [hdr] at hmap; simp at hmap
        | some d =>
            rw [hdr] at hmap
            simp only [Option.map_some', Option.some.injEq] at hmap
            have hb := List.mem_range'_1.mp hks
            exact ⟨k, by omega, by omega, by rw [← hmap]⟩
  · intro hc
    have hrd : read_data fb N =
        { data := none, logs := [LogEvent.connectFailed], requests := [] } := by
      simp [read_data, hc]
    simp [poll_cycle, hrd, update_robots]
  · intro hc hdata
    refine ⟨by simp [update_robots, hdata], ?_⟩
    simp [poll_cycle, hdata, update_robots]

theorem c10_read_data_contract_witness :
    (update_robots (read_data fbDown 1).data = Except.error PyError.attributeError ∧
        (poll_cycle fbDown 1).sleepSeconds = 10) ∧
    (update_robots (read_data fbEmpty 1).data = Except.ok [] ∧
        (poll_cycle fbEmpty 1).sleepSeconds = 5) :=
  ⟨(c10_read_data_contract fbDown 1).2.2.1 rfl,
   (c10_read_data_contract fbEmpty 1).2.2.2 rfl (by decide)⟩
